import Mathlib

/-!
Shallow embedding of the UI-state subsystem of
`src/frontend/src/pages/EduSpharLanding.jsx`: the theme-preference hook
(`useTheme` / `getInitial`), the scroll-header hook (`useScrollHeader`),
the animation-frame counter (`useRafCounter`), the announcement banner
(`AnnouncementBar`), and the mobile navigation sheet's focus handling
(`Header`).  Browser ambient state (window, localStorage, matchMedia) is
modelled as an explicit environment record; operations that can throw in
JavaScript are modelled with explicit Boolean throw flags and, where the
control flow matters, `Except`.
-/

namespace EduSphar

/-- The two theme values of the `useTheme` hook. -/
inductive Theme where
  | dark
  | light
deriving DecidableEq, Repr

/-- String stored in localStorage for a theme, as in
`window.localStorage.setItem(key, theme)` (line 196 of the source):
React state holds the strings "dark" and "light" themselves. -/
def Theme.toStr : Theme → String
  | Theme.dark => "dark"
  | Theme.light => "light"

/-- Ambient browser environment seen by `useTheme`.
`stored` is the current value of the `edusphar-theme` entry of
localStorage (`none` = absent); `readThrows` models
`window.localStorage?.getItem?.(key)` raising; `writeThrows` models
`setItem` raising; `localStorageDefined` models `window.localStorage`
being truthy (optional chaining yields `undefined` when it is not);
`matchMediaAvailable` and `prefersDark` model `window.matchMedia` and
the `(prefers-color-scheme: dark)` query result. -/
structure ThemeEnv where
  windowDefined : Bool
  localStorageDefined : Bool
  readThrows : Bool
  writeThrows : Bool
  stored : Option String
  matchMediaAvailable : Bool
  prefersDark : Bool
deriving DecidableEq, Repr

/-- Result of `window.localStorage?.getItem?.("edusphar-theme")`
(line 172): either an exception, or the stored string / null. -/
def readTheme (env : ThemeEnv) : Except Unit (Option String) :=
  if env.readThrows then Except.error ()
  else Except.ok (if env.localStorageDefined then env.stored else none)

/-- Embedding of `getInitial` (lines 169-181).  The whole body sits in
one `try` block whose `catch` falls through to `return "light"`; the
only throwing operation is the localStorage read. -/
def getInitial (env : ThemeEnv) : Theme :=
  if env.windowDefined = false then Theme.light
  else
    match readTheme env with
    | Except.error _ => Theme.light
    | Except.ok stored =>
        if stored = some "dark" then Theme.dark
        else if stored = some "light" then Theme.light
        else if env.matchMediaAvailable && env.prefersDark then Theme.dark
        else Theme.light

/-- Embedding of `toggle` (line 203): `setTheme(t => t === "dark" ? "light" : "dark")`. -/
def toggleTheme : Theme → Theme
  | Theme.dark => Theme.light
  | Theme.light => Theme.dark

/-- Result of running the `useEffect` body of `useTheme`
(lines 185-201) for one committed theme value: the `dark` class applied
to the document root, and the environment after the guarded,
exception-swallowing localStorage write. -/
structure ThemeEffectResult where
  docDark : Bool
  env : ThemeEnv
deriving DecidableEq, Repr

/-- Embedding of the `useEffect` body of `useTheme` (lines 185-201):
first the document-root class is set from the in-memory theme (outside
any try), then the persistence write runs inside `try { ... } catch {}`
guarded by `typeof window !== "undefined" && window.localStorage`. -/
def themeEffect (env : ThemeEnv) (theme : Theme) : ThemeEffectResult :=
  if env.windowDefined && env.localStorageDefined then
    if env.writeThrows then { docDark := decide (theme = Theme.dark), env := env }
    else { docDark := decide (theme = Theme.dark)
           env := { env with stored := some theme.toStr } }
  else { docDark := decide (theme = Theme.dark), env := env }

/-- The localStorage key of the theme hook (line 167). -/
def themeKey : String := "edusphar-theme"

/-- The localStorage key of the announcement banner (line 281). -/
def announceKey : String := "edusphar-announce-dismissed"

/-- The keys of the four localStorage access sites of the UI subsystem,
in source order: the theme read (line 172), the theme write (line 196),
the banner read (line 285) and the banner write (line 297). -/
def storageAccessKeys : List String := [themeKey, themeKey, announceKey, announceKey]

/-- String written for the banner-dismissed flag
(`dismissed ? "1" : "0"`, line 297). -/
def announceValue (dismissed : Bool) : String := if dismissed then "1" else "0"

/-! ### Scroll header (`useScrollHeader`, lines 212-234) -/

/-- State of the scroll-header subscription: `lastY` is the captured
scroll offset, `pendingFrame` says whether a `requestAnimationFrame`
callback is currently scheduled, `recomputeCount` counts how many times
`setShrunk` has been invoked, and `shrunk` is the current derived
value. -/
structure ScrollState where
  lastY : Nat
  pendingFrame : Bool
  recomputeCount : Nat
  shrunk : Bool
deriving DecidableEq, Repr

/-- Embedding of the `onScroll` handler (lines 219-225): capture
`window.scrollY` into `lastY`, cancel any pending frame callback and
schedule a fresh one. -/
def onScroll (s : ScrollState) (y : Nat) : ScrollState :=
  { s with lastY := y, pendingFrame := true }

/-- Embedding of one animation frame firing: the single scheduled
callback (if any) runs `setShrunk(lastY > threshold)` once. -/
def fireFrame (threshold : Nat) (s : ScrollState) : ScrollState :=
  if s.pendingFrame then
    { s with
      pendingFrame := false
      shrunk := decide (threshold < s.lastY)
      recomputeCount := s.recomputeCount + 1 }
  else s

/-- A burst of scroll events delivered before the next frame fires. -/
def scrollBurst (s : ScrollState) (ys : List Nat) : ScrollState :=
  ys.foldl onScroll s

/-! ### Animated counter (`useRafCounter`, lines 240-273) -/

/-- Embedding of `const progress = Math.min(elapsed / duration, 1)`
(line 258), over exact rationals. -/
def progressOf (duration elapsed : Nat) : ℚ :=
  min ((elapsed : ℚ) / (duration : ℚ)) 1

/-- Embedding of `Math.floor(progress * targetRef.current)` (line 259). -/
def displayOf (target duration elapsed : Nat) : Nat :=
  (⌊progressOf duration elapsed * (target : ℚ)⌋).toNat

/-- State of one animation run of `useRafCounter`: the captured start
timestamp (`null` before the first frame), the displayed value `val`,
and whether a further frame callback is scheduled. -/
structure CounterState where
  start : Option Nat
  val : Nat
  frameScheduled : Bool
deriving DecidableEq, Repr

/-- Embedding of the `step(ts)` frame callback (lines 255-264):
`if (!start) start = ts`, compute elapsed and progress, display
`Math.floor(progress * target)`, and schedule another frame only while
`progress < 1`. -/
def counterStep (target duration : Nat) (s : CounterState) (ts : Nat) : CounterState :=
  let st := s.start.getD ts
  let elapsed := ts - st
  { start := some st
    val := displayOf target duration elapsed
    frameScheduled := decide (progressOf duration elapsed < 1) }

/-- Embedding of the effect restart when `target` (or `duration`)
changes (lines 247-270): the cleanup cancels the pending frame of the
prior run (`cancelAnimationFrame(rafId)`), and the effect body runs
again with the local `start` reset to `null` and a fresh first frame
scheduled; the React state `val` is untouched until that frame fires. -/
def restartEffect (s : CounterState) : CounterState :=
  { start := none, val := s.val, frameScheduled := true }

/-! ### Announcement banner (`AnnouncementBar`, lines 280-337) -/

/-- Ambient environment of the banner: the current
`edusphar-announce-dismissed` entry, throw flags for the localStorage
read and write, and a counter of successful writes. -/
structure AnnounceEnv where
  windowDefined : Bool
  localStorageDefined : Bool
  readThrows : Bool
  writeThrows : Bool
  entry : Option String
  writeCount : Nat
deriving DecidableEq, Repr

/-- Embedding of the banner's `getInitial` (lines 282-289):
`window.localStorage?.getItem?.(storageKey) === "1"`, with the catch
returning `false`. -/
def announceGetInitial (env : AnnounceEnv) : Bool :=
  if env.windowDefined = false then false
  else if env.readThrows then false
  else decide ((if env.localStorageDefined then env.entry else none) = some "1")

/-- Embedding of the banner's persistence `useEffect` (lines 294-302):
guarded, exception-swallowing `setItem(storageKey, dismissed ? "1" : "0")`,
run on mount and again whenever `dismissed` changes. -/
def announceEffect (env : AnnounceEnv) (dismissed : Bool) : AnnounceEnv :=
  if env.windowDefined && env.localStorageDefined then
    if env.writeThrows then env
    else { env with
           entry := some (announceValue dismissed)
           writeCount := env.writeCount + 1 }
  else env

/-- Mounting the banner: read the initial `dismissed` state, then the
effect commits it back to storage.  Returns the in-memory flag and the
environment after the mount effect. -/
def announceMount (env : AnnounceEnv) : Bool × AnnounceEnv :=
  let d := announceGetInitial env
  (d, announceEffect env d)

/-- The user pressing Dismiss (line 328): `setDismissed(true)` and the
effect re-runs with the new value. -/
def announceDismiss (env : AnnounceEnv) : Bool × AnnounceEnv :=
  (true, announceEffect env true)

/-! ### Mobile navigation sheet (`Header`, lines 343-375)

Focusable elements of the whole document are modelled by their indices
`0, 1, 2, ...` in document focus order; the sheet's focusable set is
the contiguous range `[a, b]` (in the source DOM the sheet's close
button, four links and sign-up button are contiguous).  The browser's
default Tab behaviour moves focus to the adjacent element in that
order. -/

/-- Browser default Tab / Shift+Tab: move to the adjacent focusable in
document order (the handler lets the default through when it does not
prevent it). -/
def defaultTab (shift : Bool) (i : Nat) : Nat :=
  if shift then i - 1 else i + 1

/-- Embedding of the Tab branch of the `onKey` handler (lines 357-368):
`idx = arr.indexOf(document.activeElement)`; on Shift+Tab at index 0
focus the last sheet element, on Tab at the last index focus the first,
otherwise let the browser default act. -/
def trapTab (a b : Nat) (shift : Bool) (i : Nat) : Nat :=
  if shift = true ∧ a ≤ i ∧ i ≤ b ∧ i = a then b
  else if shift = false ∧ a ≤ i ∧ i ≤ b ∧ i = b then a
  else defaultTab shift i

/-- Events driving the mobile sheet: the open button (line 435), the
close button (line 479), a click on the overlay background (line 457),
the Escape key (line 356), and Tab / Shift+Tab key presses. -/
inductive NavEvent where
  | openSheet
  | closeButton
  | overlayClick
  | escape
  | tab (shift : Bool)
deriving DecidableEq, Repr

/-- State of the mobile sheet: whether it is open, the element that was
focused when it was opened (`prev = document.activeElement`, line 349),
and the currently focused element. -/
structure NavState where
  isOpen : Bool
  captured : Nat
  focusIdx : Nat
deriving DecidableEq, Repr

/-- One transition of the sheet.  Opening runs the focus-trap effect:
capture `document.activeElement` and focus the first focusable of the
sheet (`focusable[0].focus()`, line 354).  Every transition to closed
runs the effect cleanup, which detaches the key handler and restores
focus to the captured element (`prev?.focus()`, line 373).  While open,
Tab is routed through the trap; while closed the handler is detached
and the browser default applies. -/
def navStep (a b : Nat) (s : NavState) : NavEvent → NavState
  | NavEvent.openSheet =>
      if s.isOpen then s
      else { isOpen := true, captured := s.focusIdx, focusIdx := a }
  | NavEvent.closeButton =>
      if s.isOpen then { isOpen := false, captured := s.captured, focusIdx := s.captured }
      else s
  | NavEvent.overlayClick =>
      if s.isOpen then { isOpen := false, captured := s.captured, focusIdx := s.captured }
      else s
  | NavEvent.escape =>
      if s.isOpen then { isOpen := false, captured := s.captured, focusIdx := s.captured }
      else s
  | NavEvent.tab shift =>
      if s.isOpen then { s with focusIdx := trapTab a b shift s.focusIdx }
      else { s with focusIdx := defaultTab shift s.focusIdx }

/-- A sequence of Tab / Shift+Tab presses. -/
def tabFold (a b : Nat) (s : NavState) (shifts : List Bool) : NavState :=
  shifts.foldl (fun st sh => navStep a b st (NavEvent.tab sh)) s

/-! ## Theorems -/

/-- C1: `getInitial` resolves with precedence persisted > OS > default:
for every persisted value equal to "dark" or "light" it returns exactly
that value regardless of the OS color-scheme signal; when no valid
persisted value exists (and the read does not throw) it returns "dark"
if the OS signal reports dark and "light" otherwise. -/
theorem C1_getInitial_precedence (env : ThemeEnv)
    (hw : env.windowDefined = true) (hr : env.readThrows = false) :
    (env.localStorageDefined = true → env.stored = some "dark" → getInitial env = Theme.dark) ∧
    (env.localStorageDefined = true → env.stored = some "light" → getInitial env = Theme.light) ∧
    ((env.localStorageDefined = false ∨ (env.stored ≠ some "dark" ∧ env.stored ≠ some "light")) →
      getInitial env =
        (if env.matchMediaAvailable && env.prefersDark then Theme.dark else Theme.light)) := by
  refine ⟨?_, ?_, ?_⟩
  · intro hl hs
    simp [getInitial, readTheme, hw, hr, hl, hs]
  · intro hl hs
    simp [getInitial, readTheme, hw, hr, hl, hs]
  · intro h
    rcases h with hl | ⟨h1, h2⟩
    · simp [getInitial, readTheme, hw, hr, hl]
    · cases hl : env.localStorageDefined
      · simp [getInitial, readTheme, hw, hr, hl]
      · simp [getInitial, readTheme, hw, hr, hl, h1, h2]

/-- Witness for C1 at a concrete environment: a persisted "light" wins
over an OS signal reporting dark. -/
theorem C1_witness :
    getInitial ⟨true, true, false, false, some "light", true, true⟩ = Theme.light :=
  (C1_getInitial_precedence ⟨true, true, false, false, some "light", true, true⟩ rfl rfl).2.1
    rfl rfl

/-- C10: if reading the persisted theme throws, `getInitial` returns
"light" without consulting the OS color-scheme signal — the storage
read and the OS query share one try block, so the fallback is skipped
even when the OS reports dark. -/
theorem C10_read_throw_skips_os (env : ThemeEnv) (hr : env.readThrows = true) :
    getInitial env = Theme.light := by
  cases hw : env.windowDefined <;> simp [getInitial, readTheme, hw, hr]

/-- Witness for C10: storage read throws while the OS signal reports
dark, yet the result is "light". -/
theorem C10_witness :
    getInitial ⟨true, true, true, false, none, true, true⟩ = Theme.light :=
  C10_read_throw_skips_os ⟨true, true, true, false, none, true, true⟩ rfl

/-- C8: when the persistent storage API is missing or throws, every
theme operation still yields a well-defined result: `getInitial`
returns a theme, the effect still applies the in-memory theme to the
document root, the store is left untouched, and `toggle` remains an
involution on the in-memory value. -/
theorem C8_storage_failure_swallowed (env : ThemeEnv) (t : Theme)
    (h : env.localStorageDefined = false ∨ (env.readThrows = true ∧ env.writeThrows = true)) :
    (getInitial env = Theme.light ∨ getInitial env = Theme.dark) ∧
    (themeEffect env t).docDark = decide (t = Theme.dark) ∧
    (themeEffect env t).env = env ∧
    toggleTheme (toggleTheme t) = t := by
  refine ⟨?_, ?_, ?_, ?_⟩
  · cases hg : getInitial env
    · right; rfl
    · left; rfl
  · unfold themeEffect
    split_ifs <;> rfl
  · rcases h with hl | ⟨hr, hw⟩
    · simp [themeEffect, hl]
    · simp [themeEffect, hw]
  · cases t <;> rfl

/-- Witness for C8 at a concrete environment with localStorage missing:
the effect leaves the environment unchanged. -/
theorem C8_witness :
    (themeEffect ⟨true, false, true, true, none, true, true⟩ Theme.dark).env =
      ⟨true, false, true, true, none, true, true⟩ :=
  (C8_storage_failure_swallowed ⟨true, false, true, true, none, true, true⟩ Theme.dark
    (Or.inl rfl)).2.2.1

/-- A burst of scroll events never recomputes: only the frame callback
calls `setShrunk`. -/
theorem scrollBurst_recomputeCount (ys : List Nat) (s : ScrollState) :
    (scrollBurst s ys).recomputeCount = s.recomputeCount := by
  induction ys generalizing s with
  | nil => rfl
  | cons y ys ih => simpa [scrollBurst, onScroll] using ih (onScroll s y)

/-- The burst folds one event at a time. -/
theorem scrollBurst_append (s : ScrollState) (ys : List Nat) (y : Nat) :
    scrollBurst s (ys ++ [y]) = onScroll (scrollBurst s ys) y := by
  simp [scrollBurst, List.foldl_append]

/-- C5: a scroll position at or below the threshold yields
`shrunk = false` and one strictly above yields `shrunk = true`; and a
burst of scroll events followed by a single animation frame performs at
most one recomputation (exactly one for a nonempty burst), computed
from the last captured scroll position. -/
theorem C5_scroll_header (threshold : Nat) (s : ScrollState) (ys : List Nat) (y : Nat) :
    (fireFrame threshold (scrollBurst s ys)).recomputeCount ≤ s.recomputeCount + 1 ∧
    (y ≤ threshold → (fireFrame threshold (onScroll s y)).shrunk = false) ∧
    (threshold < y → (fireFrame threshold (onScroll s y)).shrunk = true) ∧
    (fireFrame threshold (scrollBurst s (ys ++ [y]))).shrunk = decide (threshold < y) ∧
    (fireFrame threshold (scrollBurst s (ys ++ [y]))).recomputeCount = s.recomputeCount + 1 := by
  refine ⟨?_, ?_, ?_, ?_, ?_⟩
  · unfold fireFrame
    split
    · simp [scrollBurst_recomputeCount]
    · rw [scrollBurst_recomputeCount]
      omega
  · intro h
    simp [fireFrame, onScroll, Nat.not_lt.mpr h]
  · intro h
    simp [fireFrame, onScroll, h]
  · rw [scrollBurst_append]
    simp [fireFrame, onScroll]
  · rw [scrollBurst_append]
    simp [fireFrame, onScroll, scrollBurst_recomputeCount]

/-- Witness for C5 at concrete inputs: scrolling to 10 then 100 within
one frame with threshold 48 recomputes once and yields shrunk. -/
theorem C5_witness :
    (fireFrame 48 (scrollBurst ⟨0, false, 0, false⟩ ([10] ++ [100]))).shrunk = decide (48 < 100) ∧
    (fireFrame 48 (scrollBurst ⟨0, false, 0, false⟩ ([10] ++ [100]))).recomputeCount = 0 + 1 :=
  ⟨(C5_scroll_header 48 ⟨0, false, 0, false⟩ [10] 100).2.2.2.1,
   (C5_scroll_header 48 ⟨0, false, 0, false⟩ [10] 100).2.2.2.2⟩

/-- The elapsed ratio is never negative. -/
theorem progressOf_nonneg (d e : Nat) : 0 ≤ progressOf d e := by
  unfold progressOf
  exact le_min (by positivity) zero_le_one

/-- The elapsed ratio is clamped to at most 1. -/
theorem progressOf_le_one (d e : Nat) : progressOf d e ≤ 1 :=
  min_le_right _ _

/-- The elapsed ratio is monotone in elapsed time. -/
theorem progressOf_mono (d : Nat) {e e2 : Nat} (h : e ≤ e2) :
    progressOf d e ≤ progressOf d e2 := by
  unfold progressOf
  rcases Nat.eq_zero_or_pos d with hd | hd
  · subst hd
    simp
  · refine min_le_min ?_ le_rfl
    gcongr

/-- Elapsed 0 gives ratio 0. -/
theorem progressOf_zero (d : Nat) : progressOf d 0 = 0 := by
  unfold progressOf
  rw [Nat.cast_zero, zero_div]
  exact min_eq_left zero_le_one

/-- Once elapsed reaches the duration the ratio is exactly 1. -/
theorem progressOf_eq_one (d e : Nat) (hd : 0 < d) (h : d ≤ e) :
    progressOf d e = 1 := by
  unfold progressOf
  have hd2 : (0:ℚ) < (d:ℚ) := by exact_mod_cast hd
  exact min_eq_right ((one_le_div hd2).mpr (by exact_mod_cast h))

/-- The displayed value starts at 0. -/
theorem displayOf_zero (t d : Nat) : displayOf t d 0 = 0 := by
  unfold displayOf
  rw [progressOf_zero, zero_mul, Int.floor_zero]
  rfl

/-- The displayed value never exceeds the target. -/
theorem displayOf_le_target (t d e : Nat) : displayOf t d e ≤ t := by
  unfold displayOf
  rw [Int.toNat_le]
  have h1 : progressOf d e * (t:ℚ) ≤ 1 * (t:ℚ) :=
    mul_le_mul_of_nonneg_right (progressOf_le_one d e) (by positivity)
  rw [one_mul] at h1
  calc ⌊progressOf d e * (t:ℚ)⌋ ≤ ⌊(t:ℚ)⌋ := Int.floor_le_floor h1
    _ = (t:ℤ) := Int.floor_natCast t

/-- The displayed value is monotone in elapsed time. -/
theorem displayOf_mono (t d : Nat) {e e2 : Nat} (h : e ≤ e2) :
    displayOf t d e ≤ displayOf t d e2 := by
  unfold displayOf
  exact Int.toNat_le_toNat (Int.floor_le_floor
    (mul_le_mul_of_nonneg_right (progressOf_mono d h) (by positivity)))

/-- Once elapsed reaches the duration the displayed value is the target. -/
theorem displayOf_terminal (t d e : Nat) (hd : 0 < d) (h : d ≤ e) :
    displayOf t d e = t := by
  unfold displayOf
  rw [progressOf_eq_one d e hd h, one_mul, Int.floor_natCast]
  exact Int.toNat_natCast t

/-- C2: at each frame the displayed value is
`floor(min(1, elapsed/duration) * target)`; the first frame displays 0;
the values are monotone along non-decreasing timestamps and bounded by
the target; and once the elapsed ratio reaches 1 the display is exactly
the target and no further frame is scheduled. -/
theorem C2_counter_frames (target duration t0 v ts ts2 : Nat) (b : Bool)
    (hd : 0 < duration) (h0 : t0 ≤ ts) (hts : ts ≤ ts2) :
    (counterStep target duration ⟨some t0, v, b⟩ ts).val =
      displayOf target duration (ts - t0) ∧
    (counterStep target duration ⟨none, v, b⟩ ts).val = 0 ∧
    (counterStep target duration ⟨some t0, v, b⟩ ts).val ≤
      (counterStep target duration ⟨some t0, v, b⟩ ts2).val ∧
    (counterStep target duration ⟨some t0, v, b⟩ ts).val ≤ target ∧
    (t0 + duration ≤ ts →
      (counterStep target duration ⟨some t0, v, b⟩ ts).val = target ∧
      (counterStep target duration ⟨some t0, v, b⟩ ts).frameScheduled = false) := by
  refine ⟨rfl, ?_, ?_, ?_, ?_⟩
  · show displayOf target duration (ts - ts) = 0
    rw [Nat.sub_self]
    exact displayOf_zero _ _
  · exact displayOf_mono _ _ (Nat.sub_le_sub_right hts t0)
  · exact displayOf_le_target _ _ _
  · intro hterm
    have he : duration ≤ ts - t0 := by omega
    refine ⟨displayOf_terminal _ _ _ hd he, ?_⟩
    show decide (progressOf duration (ts - t0) < 1) = false
    rw [progressOf_eq_one duration (ts - t0) hd he]
    simp

/-- Witness for C2: target 1000 over 1000ms, started at 0; at
timestamp 1500 the display is exactly 1000 and no frame is scheduled. -/
theorem C2_witness :
    (counterStep 1000 1000 ⟨some 0, 0, true⟩ 1500).val = 1000 ∧
    (counterStep 1000 1000 ⟨some 0, 0, true⟩ 1500).frameScheduled = false :=
  (C2_counter_frames 1000 1000 0 0 1500 1500 true (by decide) (by decide) le_rfl).2.2.2.2
    (by decide)

/-- C3: after the effect restart caused by a target change (cleanup
cancels the pending frame, the new run's `start` is null), the first
frame of the new run displays 0 whatever the previous displayed value
was, restarts timing at that frame's timestamp, and schedules the next
frame — it never resumes from the current displayed value. -/
theorem C3_restart_from_zero (target duration : Nat) (s : CounterState) (ts : Nat) :
    (counterStep target duration (restartEffect s) ts).val = 0 ∧
    (counterStep target duration (restartEffect s) ts).start = some ts ∧
    (counterStep target duration (restartEffect s) ts).frameScheduled = true := by
  refine ⟨?_, rfl, ?_⟩
  · show displayOf target duration (ts - ts) = 0
    rw [Nat.sub_self]
    exact displayOf_zero _ _
  · show decide (progressOf duration (ts - ts) < 1) = true
    rw [Nat.sub_self, progressOf_zero]
    simp

/-- The trap keeps a focus index inside the sheet range inside it. -/
theorem trapTab_mem (a b : Nat) (hab : a ≤ b) (shift : Bool) (i : Nat)
    (h1 : a ≤ i) (h2 : i ≤ b) :
    a ≤ trapTab a b shift i ∧ trapTab a b shift i ≤ b := by
  cases shift <;> simp [trapTab, defaultTab] <;> split_ifs <;> omega

/-- Tab presses while the sheet is open preserve openness, the focus
range invariant, and the captured element. -/
theorem tabFold_invariant (a b : Nat) (hab : a ≤ b) (shifts : List Bool) (s : NavState)
    (hopen : s.isOpen = true) (h1 : a ≤ s.focusIdx) (h2 : s.focusIdx ≤ b) :
    (tabFold a b s shifts).isOpen = true ∧
    a ≤ (tabFold a b s shifts).focusIdx ∧
    (tabFold a b s shifts).focusIdx ≤ b ∧
    (tabFold a b s shifts).captured = s.captured := by
  induction shifts generalizing s with
  | nil => exact ⟨hopen, h1, h2, rfl⟩
  | cons sh rest ih =>
    have hstep : navStep a b s (NavEvent.tab sh) =
        { s with focusIdx := trapTab a b sh s.focusIdx } := by
      simp [navStep, hopen]
    have hfold : tabFold a b s (sh :: rest) =
        tabFold a b (navStep a b s (NavEvent.tab sh)) rest := rfl
    rw [hfold, hstep]
    have hmem := trapTab_mem a b hab sh s.focusIdx h1 h2
    exact ih { s with focusIdx := trapTab a b sh s.focusIdx } hopen hmem.1 hmem.2

/-- C4: starting from opening the sheet (focus moved to its first
focusable), every sequence of Tab / Shift+Tab presses leaves focus on
an element of the sheet's focusable range — it never escapes to the
page behind the overlay — and the trap wraps from last to first and
from first to last. -/
theorem C4_focus_trap (a b : Nat) (hab : a ≤ b) (s0 : NavState)
    (h0 : s0.isOpen = false) (shifts : List Bool) :
    ((tabFold a b (navStep a b s0 NavEvent.openSheet) shifts).isOpen = true ∧
     a ≤ (tabFold a b (navStep a b s0 NavEvent.openSheet) shifts).focusIdx ∧
     (tabFold a b (navStep a b s0 NavEvent.openSheet) shifts).focusIdx ≤ b) ∧
    trapTab a b false b = a ∧
    trapTab a b true a = b := by
  have hopen : navStep a b s0 NavEvent.openSheet =
      { isOpen := true, captured := s0.focusIdx, focusIdx := a } := by
    simp [navStep, h0]
  refine ⟨?_, ?_, ?_⟩
  · rw [hopen]
    obtain ⟨o, l, r, _⟩ := tabFold_invariant a b hab shifts
      { isOpen := true, captured := s0.focusIdx, focusIdx := a } rfl le_rfl hab
    exact ⟨o, l, r⟩
  · simp [trapTab, hab]
  · simp [trapTab, hab]

/-- Witness for C4 with a concrete sheet range and key sequence. -/
theorem C4_witness :
    ((tabFold 2 7 (navStep 2 7 ⟨false, 0, 1⟩ NavEvent.openSheet) [false, true, true]).isOpen = true ∧
     2 ≤ (tabFold 2 7 (navStep 2 7 ⟨false, 0, 1⟩ NavEvent.openSheet) [false, true, true]).focusIdx ∧
     (tabFold 2 7 (navStep 2 7 ⟨false, 0, 1⟩ NavEvent.openSheet) [false, true, true]).focusIdx ≤ 7) ∧
    trapTab 2 7 false 7 = 2 ∧
    trapTab 2 7 true 2 = 7 :=
  C4_focus_trap 2 7 (by decide) ⟨false, 0, 1⟩ rfl [false, true, true]

/-- C9: opening the sheet captures the currently-focused element and
moves focus to the sheet's first focusable; Escape while open closes
the sheet; and every transition to closed (Escape, close button or
overlay click) restores focus to the element captured at entry, even
after arbitrary Tab traffic in between. -/
theorem C9_open_close_focus (a b : Nat) (hab : a ≤ b) (s0 : NavState)
    (h0 : s0.isOpen = false) (shifts : List Bool) :
    (navStep a b s0 NavEvent.openSheet).captured = s0.focusIdx ∧
    (navStep a b s0 NavEvent.openSheet).focusIdx = a ∧
    (navStep a b s0 NavEvent.openSheet).isOpen = true ∧
    (navStep a b (tabFold a b (navStep a b s0 NavEvent.openSheet) shifts)
      NavEvent.escape).isOpen = false ∧
    (navStep a b (tabFold a b (navStep a b s0 NavEvent.openSheet) shifts)
      NavEvent.escape).focusIdx = s0.focusIdx ∧
    (navStep a b (tabFold a b (navStep a b s0 NavEvent.openSheet) shifts)
      NavEvent.closeButton).focusIdx = s0.focusIdx ∧
    (navStep a b (tabFold a b (navStep a b s0 NavEvent.openSheet) shifts)
      NavEvent.overlayClick).focusIdx = s0.focusIdx := by
  have hopen : navStep a b s0 NavEvent.openSheet =
      { isOpen := true, captured := s0.focusIdx, focusIdx := a } := by
    simp [navStep, h0]
  rw [hopen]
  obtain ⟨ho2, _, _, hc2⟩ := tabFold_invariant a b hab shifts
    { isOpen := true, captured := s0.focusIdx, focusIdx := a } rfl le_rfl hab
  refine ⟨rfl, rfl, rfl, ?_, ?_, ?_, ?_⟩ <;> simp [navStep, ho2, hc2]

/-- Witness for C9 with a concrete sheet range and key sequence. -/
theorem C9_witness :
    (navStep 2 7 ⟨false, 0, 1⟩ NavEvent.openSheet).captured = 1 ∧
    (navStep 2 7 ⟨false, 0, 1⟩ NavEvent.openSheet).focusIdx = 2 ∧
    (navStep 2 7 ⟨false, 0, 1⟩ NavEvent.openSheet).isOpen = true ∧
    (navStep 2 7 (tabFold 2 7 (navStep 2 7 ⟨false, 0, 1⟩ NavEvent.openSheet) [false, false])
      NavEvent.escape).isOpen = false ∧
    (navStep 2 7 (tabFold 2 7 (navStep 2 7 ⟨false, 0, 1⟩ NavEvent.openSheet) [false, false])
      NavEvent.escape).focusIdx = 1 ∧
    (navStep 2 7 (tabFold 2 7 (navStep 2 7 ⟨false, 0, 1⟩ NavEvent.openSheet) [false, false])
      NavEvent.closeButton).focusIdx = 1 ∧
    (navStep 2 7 (tabFold 2 7 (navStep 2 7 ⟨false, 0, 1⟩ NavEvent.openSheet) [false, false])
      NavEvent.overlayClick).focusIdx = 1 :=
  C9_open_close_focus 2 7 (by decide) ⟨false, 0, 1⟩ rfl [false, false]

/-- Counterexample to C6 as stated: with an absent banner entry and a
run in which the user never dismisses, mounting the banner already
performs one successful localStorage write and changes the entry from
absent to "0" — the entry does not stay unchanged and the write does
not happen at a dismissal. -/
theorem C6_counterexample :
    (announceMount ⟨true, true, false, false, none, 0⟩).2.entry = some "0" ∧
    (announceMount ⟨true, true, false, false, none, 0⟩).2.writeCount = 1 ∧
    (⟨true, true, false, false, none, 0⟩ : AnnounceEnv).entry ≠ some "0" :=
  ⟨rfl, rfl, by decide⟩

/-- C6 amended: the banner entry is written once per committed value of
the dismissed flag, including its initialization at mount — mount
writes "1" if the entry read as "1" and "0" otherwise, and dismissal
writes "1"; an entry that read as "1" is never overwritten with a
different value (no auto-reset), so a dismissed banner stays
dismissed. -/
theorem C6_banner_persistence (env : AnnounceEnv)
    (hw : env.windowDefined = true) (hl : env.localStorageDefined = true)
    (hr : env.readThrows = false) (hwr : env.writeThrows = false) :
    (announceMount env).2.entry = some (if env.entry = some "1" then "1" else "0") ∧
    (env.entry = some "1" → (announceMount env).2.entry = some "1") ∧
    (announceDismiss env).2.entry = some "1" ∧
    (announceDismiss env).1 = true ∧
    (announceMount env).2.writeCount = env.writeCount + 1 := by
  by_cases he : env.entry = some "1" <;>
    simp [announceMount, announceDismiss, announceGetInitial, announceEffect, announceValue,
      hw, hl, hr, hwr, he]

/-- Witness for C6 amended: a persisted "1" survives mount. -/
theorem C6_witness :
    (announceMount ⟨true, true, false, false, some "1", 0⟩).2.entry = some "1" :=
  (C6_banner_persistence ⟨true, true, false, false, some "1", 0⟩ rfl rfl rfl rfl).2.1 rfl

/-- Counterexample to C7 as stated: the two localStorage keys of the UI
subsystem are not the bare strings "theme" and "announce-dismissed" —
both carry the "edusphar-" prefix. -/
theorem C7_counterexample :
    themeKey ≠ "theme" ∧ announceKey ≠ "announce-dismissed" := by
  constructor <;> decide

/-- C7 amended: the persisted key-value store is accessed under exactly
two keys — "edusphar-theme", storing "dark" or "light", and
"edusphar-announce-dismissed", storing "0" or "1" — and every
localStorage access site of the UI subsystem uses one of them. -/
theorem C7_storage_keys (k : String) (hk : k ∈ storageAccessKeys) :
    (k = "edusphar-theme" ∨ k = "edusphar-announce-dismissed") ∧
    (∀ t : Theme, Theme.toStr t = "dark" ∨ Theme.toStr t = "light") ∧
    (∀ d : Bool, announceValue d = "0" ∨ announceValue d = "1") := by
  refine ⟨?_, ?_, ?_⟩
  · have hexp : storageAccessKeys = ["edusphar-theme", "edusphar-theme",
        "edusphar-announce-dismissed", "edusphar-announce-dismissed"] := rfl
    rw [hexp] at hk
    simp at hk
    tauto
  · intro t
    cases t
    · left; rfl
    · right; rfl
  · intro d
    cases d
    · left; rfl
    · right; rfl

/-- Witness for C7 amended, at the theme read site. -/
theorem C7_witness :
    themeKey = "edusphar-theme" ∨ themeKey = "edusphar-announce-dismissed" :=
  (C7_storage_keys themeKey (List.mem_cons_self _ _)).1

end EduSphar
